import Mathlib

/-!
# Verification of the CodeBeep command-dispatch and session-orchestration core

A shallow embedding, in Lean 4, of the CodeBeep Matrix bot
(`src/codebeep/bot.py`, `src/codebeep/commands.py`,
`src/codebeep/opencode_client.py`, `src/codebeep/config.py`).

Python strings are modelled as Lean `String` (character-level operations on
`List Char`), Python `dict` as an insertion-ordered association list with the
dict update/lookup semantics, Python `None`/optional values as `Option`, and
the remote OpenCode control-plane as an explicit pure server model; every
remote call an operation performs is recorded in a trace of `ApiCall`s so that
call-count properties can be stated.  Commands never raise in the model
because the modelled server always answers (the `except` branches of the
Python handlers convert transport faults to failed results; transport faults
are outside the state space modelled here, except for the session-not-found
failure of `get_session`, which is modelled explicitly).
-/

namespace CodeBeep

/-! ## Python string primitives -/

/-- Python whitespace test used by `str.strip()` / `str.split()`
(ASCII whitespace: space, tab, newline, carriage return, vertical tab,
form feed). -/
def isPySpace (c : Char) : Bool :=
  c == ' ' || c == '\t' || c == '\n' || c == '\r' ||
  c == Char.ofNat 11 || c == Char.ofNat 12

/-- Python `str.strip()` with no argument: remove leading and trailing
whitespace. -/
def pyStrip (s : String) : String :=
  ⟨((s.toList.dropWhile isPySpace).reverse.dropWhile isPySpace).reverse⟩

/-- `leadsWith needle hay`: `needle` is an initial segment of `hay`. -/
def leadsWith : List Char → List Char → Bool
  | [], _ => true
  | _ :: _, [] => false
  | n :: ns, h :: hs => n == h && leadsWith ns hs

/-- Python `str.lower()` (the command names involved are ASCII, where
`Char.toLower` agrees with Python). -/
def pyLower (s : String) : String :=
  ⟨s.toList.map Char.toLower⟩

/-- Python `s[n:]` on a string. -/
def pyDrop (n : Nat) (s : String) : String :=
  ⟨s.toList.drop n⟩

/-- Python `s.startswith(pre)` on strings. -/
def pyStartsWith (s pre : String) : Bool :=
  leadsWith pre.toList s.toList

/-- Python `str.split(maxsplit=1)` with no separator: skip leading
whitespace; if nothing remains, the result is empty; otherwise the first
run of non-whitespace is the first token and the rest, with the separating
whitespace removed, is the (possibly absent) remainder. -/
def pySplit1 (s : String) : List String :=
  let cs := s.toList.dropWhile isPySpace
  if cs.isEmpty then []
  else
    let tok := cs.takeWhile (fun c => !isPySpace c)
    let rest := (cs.dropWhile (fun c => !isPySpace c)).dropWhile isPySpace
    if rest.isEmpty then [⟨tok⟩] else [⟨tok⟩, ⟨rest⟩]

/-- Python `needle in hay` on strings: substring containment. -/
def strContains (hay needle : String) : Bool :=
  hay.toList.tails.any (fun t => leadsWith needle.toList t)

/-! ## Python dict (insertion-ordered association list) -/

/-- Python `d[k] = v`: overwrite in place if the key exists (keeping its
position), otherwise append at the end. -/
def dictSet {α : Type} (d : List (String × α)) (k : String) (v : α) :
    List (String × α) :=
  if d.any (fun p => p.1 == k) then
    d.map (fun p => if p.1 == k then (k, v) else p)
  else d ++ [(k, v)]

/-- Python `d.get(k)`: the value stored at `k`, if any. -/
def dictGet {α : Type} (d : List (String × α)) (k : String) : Option α :=
  (d.find? (fun p => p.1 == k)).map Prod.snd

/-- Python `d.values()`: the values in insertion order of their keys. -/
def dictValues {α : Type} (d : List (String × α)) : List α :=
  d.map Prod.snd

end CodeBeep

namespace CodeBeep

/-! ## The command set (`commands.py`)

Each Python `Command` subclass is instantiated exactly once at startup
(`CodeBeepBot.__init__`), so a handler instance is identified with its class;
`Cmd` is the type of handler instances. -/

/-- The eight command handler classes of `commands.py`. -/
inductive Cmd where
  | build | plan | status | sessions | abort | model | help | agents
  deriving DecidableEq, Repr

/-- `Command.name` of each handler. -/
def cmdName : Cmd → String
  | .build => "build"
  | .plan => "plan"
  | .status => "status"
  | .sessions => "sessions"
  | .abort => "abort"
  | .model => "model"
  | .help => "help"
  | .agents => "agents"

/-- `Command.aliases` of each handler. -/
def cmdAliases : Cmd → List String
  | .build => ["b", "do", "code"]
  | .plan => ["p", "analyze", "review"]
  | .status => ["s", "st"]
  | .sessions => ["ls", "list"]
  | .abort => ["stop", "cancel"]
  | .model => ["m"]
  | .help => ["h", "?"]
  | .agents => ["a"]

/-- `Command.description` of each handler. -/
def cmdDescription : Cmd → String
  | .build => "Execute a coding task with full access to modify files"
  | .plan => "Analyze code and plan changes without modifying files"
  | .status => "Check the status of current tasks"
  | .sessions => "List all OpenCode sessions"
  | .abort => "Stop the current running task"
  | .model => "Switch the AI model"
  | .help => "Show available commands"
  | .agents => "List available OpenCode agents"

/-- `Command.usage` of each handler. -/
def cmdUsage : Cmd → String
  | .build => "/build <task description>"
  | .plan => "/plan <analysis request>"
  | .status => "/status"
  | .sessions => "/sessions"
  | .abort => "/abort [session_id]"
  | .model => "/model <model_name>"
  | .help => "/help [command]"
  | .agents => "/agents"

/-- `ALL_COMMANDS` from `commands.py` (registration order). -/
def ALL_COMMANDS : List Cmd :=
  [.build, .plan, .status, .sessions, .abort, .model, .help, .agents]

/-- The command registry `bot.commands` built in `CodeBeepBot.__init__`:
for each command class in `ALL_COMMANDS`, bind its name, then each of its
aliases, to the one handler instance. -/
def registry : List (String × Cmd) :=
  ALL_COMMANDS.foldl
    (fun d c => (cmdAliases c).foldl (fun d a => dictSet d a c)
      (dictSet d (cmdName c) c))
    []

/-- `bot.commands.values()`: the registry's handler entries in insertion
order (one entry per registered key). -/
def registryValues : List Cmd :=
  dictValues registry

/-- Command lookup as the dispatcher performs it
(`handle_message`: `cmd_name = parts[0].lower()`; `self.commands.get(cmd_name)`). -/
def dispatchLookup (tok : String) : Option Cmd :=
  dictGet registry (pyLower tok)

end CodeBeep

namespace CodeBeep

/-! ## Data model (`opencode_client.py` dataclasses) -/

/-- The `Session` dataclass (the `share` payload is opaque to the core and
kept abstract as an optional string). -/
structure Session where
  id : String
  title : Option String
  parent_id : Option String
  created_at : String
  updated_at : String
  share : Option String := none
  deriving DecidableEq, Repr

/-- The `SessionStatus` dataclass. -/
structure SessionStatus where
  session_id : String
  status : String
  agent : Option String := none
  model : Option String := none
  deriving DecidableEq, Repr

/-- One entry of the `/agent` listing: a record with optional `name` and
`description` fields (the handler reads them with `dict.get` defaults). -/
structure AgentInfo where
  name : Option String
  description : Option String
  deriving DecidableEq, Repr

/-- The `CommandResult` dataclass (`commands.py`); `data` is an optional
string-keyed mapping. -/
structure CommandResult where
  success : Bool
  message : String
  data : Option (List (String × String)) := none
  deriving DecidableEq, Repr

/-! ## Server model

The remote OpenCode control-plane, modelled as the state it exposes to the
operations the bot uses.  Created sessions are appended to the session list
and receive a fresh id drawn from a counter. -/

/-- Model of the remote control-plane's observable state. -/
structure Server where
  sessions : List Session
  statuses : List (String × SessionStatus)
  agents : List AgentInfo
  nextId : Nat
  deriving DecidableEq, Repr

/-- One remote call issued against the control-plane (recorded, per
operation, in a trace). -/
inductive ApiCall where
  | getSession (session_id : String)
  | createSession (title parent_id : Option String)
  | sendMessageAsync (session_id content : String) (agent model : Option String)
  | getSessionStatus
  | listSessions
  | abortSession (session_id : String)
  | listAgents
  deriving DecidableEq, Repr

/-- `GET /session/{id}`: the session with the given id, if the server has
one (`None` models the `NotFound` failure of `get_session`). -/
def serverGetSession (srv : Server) (session_id : String) : Option Session :=
  srv.sessions.find? (fun s => s.id == session_id)

/-- The id the server will assign to the next created session. -/
def freshSessionId (srv : Server) : String :=
  "ses_" ++ toString srv.nextId

/-- `POST /session`: create a session with a fresh id and the requested
optional fields, append it to the session list, and return it. -/
def serverCreateSession (srv : Server) (title parent_id : Option String) :
    Session × Server :=
  let s : Session :=
    { id := freshSessionId srv, title := title, parent_id := parent_id,
      created_at := "", updated_at := "" }
  (s, { srv with sessions := srv.sessions ++ [s], nextId := srv.nextId + 1 })

/-- Python truthiness of an optional string (`None` and `""` are falsy). -/
def pyTruthyOptStr : Option String → Bool
  | none => false
  | some s => s != ""

/-- The request body built by `OpenCodeClient.create_session`: start from
an empty dict, add `title` only if truthy, add `parentID` only if truthy. -/
def create_session_body (title parent_id : Option String) :
    List (String × String) :=
  let body : List (String × String) := []
  let body := if pyTruthyOptStr title then dictSet body "title" (title.getD "") else body
  let body := if pyTruthyOptStr parent_id then dictSet body "parentID" (parent_id.getD "") else body
  body

/-! ## Bot state and the session binding (`bot.py`) -/

/-- The mutable bot state: the session binding slot `active_session` and the
process-local `current_model` preference. -/
structure BotSt where
  active_session : Option Session
  current_model : Option String
  deriving DecidableEq, Repr

/-- Result of one `get_or_create_session` invocation: the returned session,
the bot state and server afterwards, and the trace of remote calls issued. -/
structure GocOut where
  session : Session
  state : BotSt
  server : Server
  calls : List ApiCall
  deriving DecidableEq, Repr

/-- `CodeBeepBot.get_or_create_session`: verify a cached session against the
server and return the fetched copy; on a verification failure clear the
binding and fall through to creation; with no cached session create one,
cache and return it. -/
def get_or_create_session (st : BotSt) (srv : Server) : GocOut :=
  match st.active_session with
  | some cached =>
    match serverGetSession srv cached.id with
    | some session =>
      -- verification succeeded: return the freshly fetched session
      -- (the binding keeps holding the cached reference, as in the code)
      { session := session, state := st, server := srv,
        calls := [.getSession cached.id] }
    | none =>
      -- the `except` branch: clear the binding, fall through to creation
      let st1 : BotSt := { st with active_session := none }
      let c := serverCreateSession srv (some "codebeep mobile session") none
      { session := c.1, state := { st1 with active_session := some c.1 },
        server := c.2,
        calls := [.getSession cached.id,
                  .createSession (some "codebeep mobile session") none] }
  | none =>
    let c := serverCreateSession srv (some "codebeep mobile session") none
    { session := c.1, state := { st with active_session := some c.1 },
      server := c.2,
      calls := [.createSession (some "codebeep mobile session") none] }

/-- Is a call a `get_session` verification call? -/
def isGetSessionCall : ApiCall → Bool
  | .getSession _ => true
  | _ => false

/-- Is a call a `create_session` creation call? -/
def isCreateSessionCall : ApiCall → Bool
  | .createSession _ _ => true
  | _ => false

/-- The `model` parameter a call carries (`none` for every call that is not
a `send_message_async`, and for a `send_message_async` without a model). -/
def modelArg : ApiCall → Option String
  | .sendMessageAsync _ _ _ m => m
  | _ => none

end CodeBeep


namespace CodeBeep

/-! ## Command handlers (`commands.py`)

Each `execute` is a pure function of the bot state, the server model and the
argument string, producing the `CommandResult`, the updated state and server,
and the trace of control-plane calls issued. -/

/-- Result of one handler execution. -/
structure ExecOut where
  result : CommandResult
  state : BotSt
  server : Server
  apiCalls : List ApiCall
  deriving DecidableEq, Repr

/-- Python `s[:n]` on a string. -/
def pyTake (n : Nat) (s : String) : String :=
  ⟨s.toList.take n⟩

/-- `BuildCommand.execute`. -/
def buildExecute (st : BotSt) (srv : Server) (args : String) : ExecOut :=
  if pyStrip args == "" then
    let msg := "Please provide a task description.\nUsage: /build <task>"
    { result := { success := false, message := msg },
      state := st, server := srv, apiCalls := [] }
  else
    let g := get_or_create_session st srv
    let msg := "Task started with build agent.\nSession: " ++
      pyTake 8 g.session.id ++ "...\n\nI\x27ll notify you when it\x27s complete."
    { result := { success := true, message := msg,
                  data := some [("session_id", g.session.id)] },
      state := g.state, server := g.server,
      apiCalls := g.calls ++
        [.sendMessageAsync g.session.id args (some "build") none] }

/-- `PlanCommand.execute`. -/
def planExecute (st : BotSt) (srv : Server) (args : String) : ExecOut :=
  if pyStrip args == "" then
    let msg := "Please provide an analysis request.\nUsage: /plan <request>"
    { result := { success := false, message := msg },
      state := st, server := srv, apiCalls := [] }
  else
    let g := get_or_create_session st srv
    let msg := "Analysis started with plan agent.\nSession: " ++
      pyTake 8 g.session.id ++ "...\n\nI\x27ll notify you when it\x27s complete."
    { result := { success := true, message := msg,
                  data := some [("session_id", g.session.id)] },
      state := g.state, server := g.server,
      apiCalls := g.calls ++
        [.sendMessageAsync g.session.id args (some "plan") none] }

/-- The status glyph mapping of `StatusCommand.execute` (dict lookup with
default `❓`). -/
def statusEmoji (status : String) : String :=
  if status == "idle" then "💤"
  else if status == "running" then "🔄"
  else if status == "waiting" then "⏳"
  else "❓"

/-- One rendered line of the status listing (the agent suffix is added only
for a truthy agent). -/
def statusLine (p : String × SessionStatus) : String :=
  statusEmoji p.2.status ++ " `" ++ pyTake 8 p.1 ++ "...` - " ++ p.2.status ++
    (if pyTruthyOptStr p.2.agent then " (" ++ p.2.agent.getD "" ++ ")" else "")

/-- `StatusCommand.execute`. -/
def statusExecute (st : BotSt) (srv : Server) (_args : String) : ExecOut :=
  let statuses := srv.statuses
  if statuses.isEmpty then
    { result := { success := true, message := "No active sessions." },
      state := st, server := srv, apiCalls := [.getSessionStatus] }
  else
    let msg := "\n".intercalate ("**Session Status:**\n" :: statuses.map statusLine)
    { result := { success := true, message := msg },
      state := st, server := srv, apiCalls := [.getSessionStatus] }

/-- One rendered line of the session listing (`session.title or "Untitled"`
falls back on a falsy title). -/
def sessionLine (s : Session) : String :=
  "• `" ++ pyTake 8 s.id ++ "...` - " ++
    (if pyTruthyOptStr s.title then s.title.getD "" else "Untitled")

/-- `SessionsCommand.execute`. -/
def sessionsExecute (st : BotSt) (srv : Server) (_args : String) : ExecOut :=
  let sessions := srv.sessions
  if sessions.isEmpty then
    { result := { success := true, message := "No sessions found." },
      state := st, server := srv, apiCalls := [.listSessions] }
  else
    let lines := "**Sessions:**\n" :: (sessions.take 10).map sessionLine
    let lines := if sessions.length > 10 then
        lines ++ ["\n... and " ++ toString (sessions.length - 10) ++ " more"]
      else lines
    { result := { success := true, message := "\n".intercalate lines },
      state := st, server := srv, apiCalls := [.listSessions] }

/-- `AbortCommand.execute`. -/
def abortExecute (st : BotSt) (srv : Server) (args : String) : ExecOut :=
  let stripped := pyStrip args
  if stripped == "" then
    let running := (srv.statuses.filter
      (fun p => p.2.status == "running")).map Prod.fst
    match running with
    | [] =>
      { result := { success := false, message := "No running tasks to abort." },
        state := st, server := srv, apiCalls := [.getSessionStatus] }
    | sid :: _ =>
      let msg := "Aborted session `" ++ pyTake 8 sid ++ "...`"
      { result := { success := true, message := msg },
        state := st, server := srv,
        apiCalls := [.getSessionStatus, .abortSession sid] }
  else
    let msg := "Aborted session `" ++ pyTake 8 stripped ++ "...`"
    { result := { success := true, message := msg },
      state := st, server := srv, apiCalls := [.abortSession stripped] }

/-- The fixed model listing of `ModelCommand.execute`. -/
def knownModelsMessage : String :=
  "**Available models:**\n" ++
  "• `claude-opus-4.5` - Most capable\n" ++
  "• `claude-sonnet-4.5` - Fast and capable\n" ++
  "• `gemini-3-pro-high` - Google\x27s best\n" ++
  "• `gemini-3-flash` - Ultra fast\n\n" ++
  "Usage: /model <name>"

/-- The model names the listing advertises. -/
def knownModels : List String :=
  ["claude-opus-4.5", "claude-sonnet-4.5", "gemini-3-pro-high", "gemini-3-flash"]

/-- `ModelCommand.execute`. -/
def modelExecute (st : BotSt) (srv : Server) (args : String) : ExecOut :=
  if pyStrip args == "" then
    { result := { success := true, message := knownModelsMessage },
      state := st, server := srv, apiCalls := [] }
  else
    let model := pyStrip args
    { result := { success := true, message := "Switched to model: `" ++ model ++ "`" },
      state := { st with current_model := some model },
      server := srv, apiCalls := [] }

/-- The per-command bullet lines of the general help listing, one per entry
of `bot.commands.values()`. -/
def helpGeneralLines : List String :=
  "**codebeep Commands:**\n" ::
    registryValues.map (fun c => "• `/" ++ cmdName c ++ "` - " ++ cmdDescription c)

/-- The full general help message (`"\n".flatten(lines)` after the footer is
appended). -/
def helpGeneralMessage : String :=
  "\n".intercalate (helpGeneralLines ++ ["\n\nUse `/help <command>` for more details."])

/-- `HelpCommand.execute`. -/
def helpExecute (st : BotSt) (srv : Server) (args : String) : ExecOut :=
  if pyStrip args != "" then
    let nm := pyLower (pyStrip args)
    let cmd := match dictGet registry nm with
      | some c => some c
      | none => registryValues.find? (fun c => (cmdAliases c).contains nm)
    match cmd with
    | none =>
      { result := { success := false, message := "Unknown command: " ++ nm },
        state := st, server := srv, apiCalls := [] }
    | some c =>
      let aliases := if !(cmdAliases c).isEmpty then
          " (aliases: " ++ ", ".intercalate (cmdAliases c) ++ ")"
        else ""
      let msg := "**/" ++ cmdName c ++ "**" ++ aliases ++ "\n\n" ++
        cmdDescription c ++ "\n\nUsage: `" ++ cmdUsage c ++ "`"
      { result := { success := true, message := msg },
        state := st, server := srv, apiCalls := [] }
  else
    { result := { success := true, message := helpGeneralMessage },
      state := st, server := srv, apiCalls := [] }

/-- One rendered line of the agent listing. -/
def agentLine (a : AgentInfo) : String :=
  "• **" ++ a.name.getD "unknown" ++ "** - " ++
    a.description.getD "No description"

/-- `AgentsCommand.execute`. -/
def agentsExecute (st : BotSt) (srv : Server) (_args : String) : ExecOut :=
  let agents := srv.agents
  if agents.isEmpty then
    { result := { success := true, message := "No agents available." },
      state := st, server := srv, apiCalls := [.listAgents] }
  else
    let msg := "\n".intercalate ("**Available Agents:**\n" :: agents.map agentLine)
    { result := { success := true, message := msg },
      state := st, server := srv, apiCalls := [.listAgents] }

/-- Dispatch to the handler's `execute`. -/
def executeCmd (c : Cmd) (st : BotSt) (srv : Server) (args : String) : ExecOut :=
  match c with
  | .build => buildExecute st srv args
  | .plan => planExecute st srv args
  | .status => statusExecute st srv args
  | .sessions => sessionsExecute st srv args
  | .abort => abortExecute st srv args
  | .model => modelExecute st srv args
  | .help => helpExecute st srv args
  | .agents => agentsExecute st srv args

end CodeBeep

namespace CodeBeep

/-! ## Result delivery (`CodeBeepBot._send_result`) -/

/-- Python `range(start, stop, step)` for a positive `step`. -/
def pyRange (start stop step : Nat) : List Nat :=
  (List.range ((stop - start + step - 1) / step)).map (fun j => start + j * step)

/-- The chunk list `[message[i:i+max_len] for i in range(0, len(message), max_len)]`
(messages as character lists). -/
def sliceMessage (maxLen : Nat) (msg : List Char) : List (List Char) :=
  (pyRange 0 msg.length maxLen).map (fun i => (msg.drop i).take maxLen)

/-- The outbound messages `_send_result` sends for a result text: the chunk
list when the text exceeds `max_message_length`, otherwise the text itself
as a single message. -/
def sendResultMessages (maxLen : Nat) (msg : List Char) : List (List Char) :=
  if maxLen < msg.length then sliceMessage maxLen msg else [msg]

/-- `sendResultMessages` at the `String` level, as the dispatcher uses it. -/
def sendResultStrings (maxLen : Nat) (message : String) : List String :=
  (sendResultMessages maxLen message.toList).map (fun l => ⟨l⟩)

/-! ## Event subscription (`OpenCodeClient.subscribe_events`)

The input stream is the list of lines the streaming response delivers; the
JSON decoder (`json.loads`) is an external library function, abstracted as a
parameter `parseEvent` returning `none` exactly when decoding raises. -/

/-- The per-line step of `subscribe_events`: the decoded payload when the
line carries the `data: ` marker, a non-empty payload follows it, and the
payload decodes; `none` (the line is skipped) otherwise. -/
def decodeEventLine {E : Type} (parseEvent : String → Option E)
    (line : String) : Option E :=
  if pyStartsWith line "data: " then
    let data := pyDrop 6 line
    if data != "" then parseEvent data else none
  else none

/-- `subscribe_events`: yield, in order, the decoded payload of every line
that carries the `data: ` marker, has a non-empty payload after it, and
decodes successfully; every other line is skipped. -/
def subscribe_events {E : Type} (parseEvent : String → Option E)
    (lines : List String) : List E :=
  lines.filterMap (decodeEventLine parseEvent)

/-! ## The dispatcher (`CodeBeepBot.handle_message`) -/

/-- The bot-behaviour configuration the dispatcher reads (`config.py`:
`matrix.username`, `matrix.allowed_users`, and the `bot` section; `pfx` is
the `bot.prefix` option, renamed because `prefix` is reserved in Lean). -/
structure BotConf where
  username : String
  allowed_users : List String
  pfx : String
  typing_indicator : Bool
  max_message_length : Nat
  unknown_command_reply : Bool
  deriving DecidableEq, Repr

/-- `CodeBeepBot.is_user_allowed`: with an empty allow-list everyone is
allowed, otherwise membership decides. -/
def is_user_allowed (conf : BotConf) (user_id : String) : Bool :=
  if conf.allowed_users.isEmpty then true
  else decide (user_id ∈ conf.allowed_users)

/-- One outbound chat-transport call. -/
inductive Outbound where
  | sendText (room_id text : String)
  | sendMarkdown (room_id text : String)
  | typing (room_id : String) (isOn : Bool)
  deriving DecidableEq, Repr

/-- Everything one `handle_message` run produces: the outbound transport
calls in order, the state and server afterwards, and the control-plane
calls issued. -/
structure DispatchOut where
  outbound : List Outbound
  state : BotSt
  server : Server
  apiCalls : List ApiCall
  deriving DecidableEq, Repr

/-- An early return of the dispatcher: nothing sent, nothing called,
nothing changed. -/
def silentOut (st : BotSt) (srv : Server) : DispatchOut :=
  { outbound := [], state := st, server := srv, apiCalls := [] }

/-- `CodeBeepBot.handle_message` for one inbound message with the given
sender and body (an absent sender or body is modelled by the empty string).
The transport's `MessageMatch.is_not_from_this_bot` facility is external and
enters as the oracle `selfCheck`: `.ok b` means the facility returned `b`,
`.error ()` means it raised and the manual sender-equality fallback runs. -/
def handle_message (conf : BotConf) (selfCheck : Except Unit Bool)
    (room_id sender body : String) (st : BotSt) (srv : Server) : DispatchOut :=
  if sender == "" then silentOut st srv
  else if body == "" then silentOut st srv
  else
    let fromSelf := match selfCheck with
      | .ok notFromBot => !notFromBot
      | .error _ => sender == conf.username
    if fromSelf then silentOut st srv
    else if !is_user_allowed conf sender then silentOut st srv
    else if !pyStartsWith body conf.pfx then silentOut st srv
    else
      match pySplit1 (pyDrop conf.pfx.length body) with
      | [] => silentOut st srv
      | tok :: rest =>
        let cmd_name := pyLower tok
        let args := rest.headD ""
        match dictGet registry cmd_name with
        | none =>
          if conf.unknown_command_reply then
            let reply := "Unknown command: " ++ cmd_name ++
              "\nUse /help to see available commands."
            { outbound := [.sendText room_id reply],
              state := st, server := srv, apiCalls := [] }
          else silentOut st srv
        | some cmd =>
          let typingOn : List Outbound :=
            if conf.typing_indicator then [.typing room_id true] else []
          let typingOff : List Outbound :=
            if conf.typing_indicator then [.typing room_id false] else []
          let e := executeCmd cmd st srv args
          let sends := (sendResultStrings conf.max_message_length
            e.result.message).map (Outbound.sendMarkdown room_id)
          { outbound := typingOn ++ sends ++ typingOff,
            state := e.state, server := e.server, apiCalls := e.apiCalls }

end CodeBeep

namespace CodeBeep

/-! ## Shared concrete inputs for witnesses and counterexamples -/

/-- The bot state at startup: empty binding, no model preference. -/
def initBotSt : BotSt :=
  { active_session := none, current_model := none }

/-- A server with no sessions, statuses or agents. -/
def initServer : Server :=
  { sessions := [], statuses := [], agents := [], nextId := 0 }

/-- A sample session used by concrete instances. -/
def sampleSession : Session :=
  { id := "s0", title := none, parent_id := none,
    created_at := "", updated_at := "" }

/-- A server holding just `sampleSession`. -/
def sampleServer : Server :=
  { sessions := [sampleSession], statuses := [], agents := [], nextId := 0 }

/-- A bot state whose binding caches `sampleSession`. -/
def sampleBotSt : BotSt :=
  { active_session := some sampleSession, current_model := none }

/-- The spec's two-call experiment: run `get_or_create_session`, then run it
again on the resulting state and server (no intervening server-side
deletion). -/
def gocTwice (st : BotSt) (srv : Server) : GocOut × GocOut :=
  let g1 := get_or_create_session st srv
  (g1, get_or_create_session g1.state g1.server)

/-- An allow-list configuration for concrete instances. -/
def guardedConf : BotConf :=
  { username := "@bot:example.org", allowed_users := ["@alice:example.org"],
    pfx := "/", typing_indicator := true, max_message_length := 4000,
    unknown_command_reply := true }

/-! ## Chunking lemmas for result delivery -/

/-- Chunking the empty message yields no chunks. -/
lemma sliceMessage_nil (m : Nat) : sliceMessage m [] = [] := by
  have h0 : (m - 1) / m = 0 := by
    rcases Nat.eq_zero_or_pos m with rfl | hm
    · simp
    · exact Nat.div_eq_of_lt (by omega)
  simp [sliceMessage, pyRange, h0]

/-- Stepping the ceiling chunk count: one chunk accounts for `m`
characters. -/
lemma ceil_div_succ (m L : Nat) (hm : 0 < m) (hL : 0 < L) :
    (L + m - 1) / m = (L - m + m - 1) / m + 1 := by
  rcases le_or_lt m L with h | h
  · have e1 : L + m - 1 = (L - 1) + m := by omega
    have e2 : L - m + m - 1 = L - 1 := by omega
    rw [e1, e2, Nat.add_div_right _ hm]
  · have e2 : L - m = 0 := by omega
    have e3 : (0 + m - 1) / m = 0 := Nat.div_eq_of_lt (by omega)
    rw [e2, e3]
    have e4 : (L + m - 1) / m = 1 := by
      apply Nat.div_eq_of_lt_le (by omega) (by omega)
    omega

/-- Unfolding one chunk off the front of the slicing comprehension. -/
lemma sliceMessage_cons (m : Nat) (hm : 0 < m) (msg : List Char)
    (hne : msg ≠ []) :
    sliceMessage m msg = msg.take m :: sliceMessage m (msg.drop m) := by
  have hL : 0 < msg.length := List.length_pos.mpr hne
  unfold sliceMessage pyRange
  rw [List.length_drop]
  rw [show msg.length - 0 + m - 1 = msg.length + m - 1 by omega,
      show msg.length - m - 0 + m - 1 = msg.length - m + m - 1 by omega]
  rw [ceil_div_succ m msg.length hm hL, List.range_succ_eq_map]
  simp only [List.map_cons, List.map_map, Nat.zero_add, Nat.zero_mul,
    List.drop_zero]
  congr 1
  apply List.map_congr_left
  intro j _
  simp only [Function.comp_apply, List.drop_drop]
  congr 2
  rw [Nat.succ_mul]
  omega

/-- Concatenating the chunks restores the message. -/
lemma sliceMessage_join (m : Nat) (hm : 0 < m) :
    ∀ (n : Nat) (msg : List Char), msg.length ≤ n →
      (sliceMessage m msg).flatten = msg := by
  intro n
  induction n with
  | zero =>
    intro msg h
    have : msg = [] := List.eq_nil_of_length_eq_zero (by omega)
    subst this
    simp [sliceMessage_nil]
  | succ k ih =>
    intro msg h
    rcases eq_or_ne msg [] with rfl | hne
    · simp [sliceMessage_nil]
    · rw [sliceMessage_cons m hm msg hne]
      have hL : 0 < msg.length := List.length_pos.mpr hne
      rw [List.flatten_cons, ih (msg.drop m) (by simp [List.length_drop]; omega)]
      exact List.take_append_drop m msg

/-- The number of chunks is the ceiling of length over chunk size. -/
lemma sliceMessage_length (m : Nat) (msg : List Char) :
    (sliceMessage m msg).length = (msg.length + m - 1) / m := by
  simp [sliceMessage, pyRange]

/-- Every chunk fits in the chunk size. -/
lemma sliceMessage_chunk_le (m : Nat) (msg : List Char) :
    ∀ c ∈ sliceMessage m msg, c.length ≤ m := by
  intro c hc
  simp only [sliceMessage, pyRange, List.mem_map, List.mem_range] at hc
  obtain ⟨j, _, rfl⟩ := hc
  simp [List.length_take]

/-- Every chunk except possibly the last is exactly the chunk size. -/
lemma sliceMessage_dropLast_full (m : Nat) (hm : 0 < m) :
    ∀ (n : Nat) (msg : List Char), msg.length ≤ n →
      ∀ c ∈ (sliceMessage m msg).dropLast, c.length = m := by
  intro n
  induction n with
  | zero =>
    intro msg h c hc
    have : msg = [] := List.eq_nil_of_length_eq_zero (by omega)
    subst this
    simp [sliceMessage_nil] at hc
  | succ k ih =>
    intro msg h c hc
    rcases eq_or_ne msg [] with rfl | hne
    · simp [sliceMessage_nil] at hc
    · rw [sliceMessage_cons m hm msg hne] at hc
      rcases eq_or_ne (msg.drop m) [] with hdrop | hdrop
      · rw [hdrop, sliceMessage_nil] at hc
        simp at hc
      · have htail : sliceMessage m (msg.drop m) ≠ [] := by
          rw [sliceMessage_cons m hm _ hdrop]
          simp
        rw [List.dropLast_cons_of_ne_nil htail] at hc
        rcases List.mem_cons.mp hc with rfl | hc'
        · have hlt : m < msg.length := by
            by_contra hcon
            exact hdrop (List.drop_eq_nil_of_le (by omega))
          simp [List.length_take]
          omega
        · exact ih (msg.drop m)
            (by simp [List.length_drop]
                have := List.length_pos.mpr hne
                omega) c hc'

/-- C3: result delivery sends one message for a text within the limit; a
longer text is sent as `ceil(L / maxMessageLength)` chunks, all of the
maximal length except possibly the last, whose in-order concatenation is
the original text. -/
theorem send_result_chunking (msg : List Char) (maxLen : Nat)
    (hm : 0 < maxLen) :
    (msg.length ≤ maxLen → sendResultMessages maxLen msg = [msg]) ∧
    (maxLen < msg.length →
      (sendResultMessages maxLen msg).length =
        (msg.length + maxLen - 1) / maxLen ∧
      (∀ c ∈ (sendResultMessages maxLen msg).dropLast, c.length = maxLen) ∧
      (∀ c ∈ sendResultMessages maxLen msg, c.length ≤ maxLen) ∧
      (sendResultMessages maxLen msg).flatten = msg) := by
  constructor
  · intro h
    simp [sendResultMessages, Nat.not_lt.mpr h]
  · intro h
    simp only [sendResultMessages, if_pos h]
    exact ⟨sliceMessage_length maxLen msg,
      fun c hc => sliceMessage_dropLast_full maxLen hm msg.length msg le_rfl c hc,
      sliceMessage_chunk_le maxLen msg,
      sliceMessage_join maxLen hm msg.length msg le_rfl⟩

/-- C3 witness: the chunking law evaluated at an eight-character message
and limit 3. -/
theorem send_result_chunking_witness :
    ("abcdefgh".toList.length ≤ 3 →
      sendResultMessages 3 "abcdefgh".toList = ["abcdefgh".toList]) ∧
    (3 < "abcdefgh".toList.length →
      (sendResultMessages 3 "abcdefgh".toList).length =
        ("abcdefgh".toList.length + 3 - 1) / 3 ∧
      (∀ c ∈ (sendResultMessages 3 "abcdefgh".toList).dropLast,
        c.length = 3) ∧
      (∀ c ∈ sendResultMessages 3 "abcdefgh".toList, c.length ≤ 3) ∧
      (sendResultMessages 3 "abcdefgh".toList).flatten = "abcdefgh".toList) :=
  send_result_chunking "abcdefgh".toList 3 (by decide)

end CodeBeep

namespace CodeBeep

/-- C10: `create_session` builds identical request bodies for an absent and
for an empty optional field — a falsy `title` (`None` or `""`) is omitted,
and likewise a falsy `parent_id` omits `parentID`. -/
theorem create_session_body_falsy_omitted :
    (∀ p : Option String,
      create_session_body none p = create_session_body (some "") p ∧
      "title" ∉ (create_session_body none p).map Prod.fst ∧
      "title" ∉ (create_session_body (some "") p).map Prod.fst) ∧
    (∀ t : Option String,
      create_session_body t none = create_session_body t (some "") ∧
      "parentID" ∉ (create_session_body t none).map Prod.fst ∧
      "parentID" ∉ (create_session_body t (some "")).map Prod.fst) := by
  constructor
  · intro p
    refine ⟨rfl, ?_, ?_⟩ <;>
      · by_cases hp : pyTruthyOptStr p <;>
          simp [create_session_body, hp, pyTruthyOptStr, dictSet]
  · intro t
    refine ⟨rfl, ?_, ?_⟩ <;>
      · by_cases ht : pyTruthyOptStr t <;>
          simp [create_session_body, ht, pyTruthyOptStr, dictSet]

/-- C10 witness: the body law evaluated at a concrete parent id and a
concrete title. -/
theorem create_session_body_falsy_omitted_witness :
    (create_session_body none (some "par") =
      create_session_body (some "") (some "par") ∧
     "title" ∉ (create_session_body none (some "par")).map Prod.fst ∧
     "title" ∉ (create_session_body (some "") (some "par")).map Prod.fst) ∧
    (create_session_body (some "t") none =
      create_session_body (some "t") (some "") ∧
     "parentID" ∉ (create_session_body (some "t") none).map Prod.fst ∧
     "parentID" ∉ (create_session_body (some "t") (some "")).map Prod.fst) :=
  ⟨create_session_body_falsy_omitted.1 (some "par"),
   create_session_body_falsy_omitted.2 (some "t")⟩

/-- C7: a line that is not a valid event record — no `data: ` marker, an
empty payload, or a payload the decoder rejects — is skipped without
terminating the stream, and the events yielded are exactly those of the
remaining lines, in order and unchanged. -/
theorem subscribe_events_skips_invalid {E : Type}
    (parseEvent : String → Option E) (pre post : List String) (line : String)
    (h : pyStartsWith line "data: " = false ∨ pyDrop 6 line = "" ∨
         parseEvent (pyDrop 6 line) = none) :
    subscribe_events parseEvent (pre ++ line :: post) =
      subscribe_events parseEvent pre ++ subscribe_events parseEvent post := by
  have hnone : decodeEventLine parseEvent line = none := by
    rcases h with h | h | h
    · simp [decodeEventLine, h]
    · simp [decodeEventLine, h]
    · simp [decodeEventLine, h]
  unfold subscribe_events
  rw [List.filterMap_append, List.filterMap_cons_none hnone]

/-- C7 witness: a `data: `-less line between two valid records is skipped
and both records still come through, in order. -/
theorem subscribe_events_skips_invalid_witness :
    (pyStartsWith "junk" "data: " = false ∨ pyDrop 6 "junk" = "" ∨
      (fun s => some s) (pyDrop 6 "junk") = none) ∧
    subscribe_events (fun s => some s) (["data: a"] ++ "junk" :: ["data: b"]) =
      subscribe_events (fun s => some s) ["data: a"] ++
        subscribe_events (fun s => some s) ["data: b"] :=
  ⟨Or.inl (by decide),
   subscribe_events_skips_invalid (fun s => some s) ["data: a"] ["data: b"]
     "junk" (Or.inl (by decide))⟩

/-- C5: command lookup, as the dispatcher performs it (lower-casing the
token before the registry lookup), resolves every casing of a registered
command name, and every declared alias, to the same handler instance as the
canonical name. -/
theorem registry_lookup_case_insensitive_alias_transparent (c : Cmd)
    (_hc : c ∈ ALL_COMMANDS) :
    dispatchLookup (cmdName c) = some c ∧
    (∀ s : String, pyLower s = cmdName c → dispatchLookup s = some c) ∧
    (∀ a ∈ cmdAliases c, dispatchLookup a = some c) := by
  refine ⟨?_, ?_, ?_⟩
  · cases c <;> decide
  · intro s hs
    unfold dispatchLookup
    rw [hs]
    cases c <;> decide
  · cases c <;> decide

/-- C5 witness: the lookup law for the `build` command, the mixed-case
token `BuIlD` and the alias `b`. -/
theorem registry_lookup_witness :
    Cmd.build ∈ ALL_COMMANDS ∧
    dispatchLookup (cmdName Cmd.build) = some Cmd.build ∧
    pyLower "BuIlD" = cmdName Cmd.build ∧
    dispatchLookup "BuIlD" = some Cmd.build ∧
    "b" ∈ cmdAliases Cmd.build ∧
    dispatchLookup "b" = some Cmd.build :=
  ⟨by decide,
   (registry_lookup_case_insensitive_alias_transparent Cmd.build (by decide)).1,
   by decide,
   (registry_lookup_case_insensitive_alias_transparent Cmd.build
     (by decide)).2.1 "BuIlD" (by decide),
   by decide,
   (registry_lookup_case_insensitive_alias_transparent Cmd.build
     (by decide)).2.2 "b" (by decide)⟩

end CodeBeep

namespace CodeBeep

/-- C2 counterexample: the no-argument help listing does NOT enumerate each
registered command exactly once — the `build` bullet line appears once per
registry key bound to the build handler (its name and its three aliases),
i.e. four times. -/
theorem help_listing_counterexample :
    (helpExecute initBotSt initServer "").result.message = helpGeneralMessage ∧
    helpGeneralLines.count
      "• `/build` - Execute a coding task with full access to modify files"
      = 4 ∧
    ¬ helpGeneralLines.count
      "• `/build` - Execute a coding task with full access to modify files"
      = 1 := by
  refine ⟨rfl, by decide, by decide⟩

/-- C2 amended: the help command invoked with no (or whitespace-only)
arguments succeeds without touching the control-plane and produces the
general listing, which enumerates each registered command once per registry
key bound to it — once for its name and once per alias, `1 + |aliases|`
times — in registry insertion order. -/
theorem help_no_args_lists_once_per_key (st : BotSt) (srv : Server)
    (args : String) (h : pyStrip args = "") :
    (helpExecute st srv args).result.success = true ∧
    (helpExecute st srv args).result.message = helpGeneralMessage ∧
    (helpExecute st srv args).apiCalls = [] ∧
    helpGeneralLines = "**codebeep Commands:**\n" ::
      (ALL_COMMANDS.flatMap (fun c =>
        List.replicate (1 + (cmdAliases c).length) c)).map
        (fun c => "• `/" ++ cmdName c ++ "` - " ++ cmdDescription c) := by
  refine ⟨?_, ?_, ?_, by decide⟩ <;> simp [helpExecute, h]

/-- C2 witness: the amended help law at whitespace-only arguments. -/
theorem help_no_args_witness :
    (helpExecute initBotSt initServer "  ").result.success = true ∧
    (helpExecute initBotSt initServer "  ").result.message =
      helpGeneralMessage ∧
    (helpExecute initBotSt initServer "  ").apiCalls = [] ∧
    helpGeneralLines = "**codebeep Commands:**\n" ::
      (ALL_COMMANDS.flatMap (fun c =>
        List.replicate (1 + (cmdAliases c).length) c)).map
        (fun c => "• `/" ++ cmdName c ++ "` - " ++ cmdDescription c) :=
  help_no_args_lists_once_per_key initBotSt initServer "  " (by decide)

end CodeBeep

namespace CodeBeep

/-- C4 counterexample: the empty-argument failure messages of `build` and
`plan` do NOT contain the commands' declared `usage` strings — the messages
carry the abbreviated hints `/build <task>` and `/plan <request>`, not
`/build <task description>` and `/plan <analysis request>`. -/
theorem required_args_usage_counterexample :
    (buildExecute initBotSt initServer "").result.success = false ∧
    strContains (buildExecute initBotSt initServer "").result.message
      (cmdUsage Cmd.build) = false ∧
    (planExecute initBotSt initServer "").result.success = false ∧
    strContains (planExecute initBotSt initServer "").result.message
      (cmdUsage Cmd.plan) = false := by
  refine ⟨by decide, by decide, by decide, by decide⟩

/-- C4 amended: `build` and `plan` invoked with an empty or whitespace-only
argument string fail with a message containing a usage hint for the command
(`Usage: /<name>`, though not the declared `usage` attribute verbatim), make
zero control-plane calls, and leave the bot state and server untouched. -/
theorem required_args_empty_rejected (st : BotSt) (srv : Server)
    (args : String) (h : pyStrip args = "") :
    ((buildExecute st srv args).result.success = false ∧
     strContains (buildExecute st srv args).result.message
       ("Usage: /" ++ cmdName Cmd.build) = true ∧
     (buildExecute st srv args).apiCalls = [] ∧
     (buildExecute st srv args).state = st ∧
     (buildExecute st srv args).server = srv) ∧
    ((planExecute st srv args).result.success = false ∧
     strContains (planExecute st srv args).result.message
       ("Usage: /" ++ cmdName Cmd.plan) = true ∧
     (planExecute st srv args).apiCalls = [] ∧
     (planExecute st srv args).state = st ∧
     (planExecute st srv args).server = srv) := by
  constructor
  · refine ⟨?_, ?_, ?_, ?_, ?_⟩ <;> (simp [buildExecute, h]; try decide)
  · refine ⟨?_, ?_, ?_, ?_, ?_⟩ <;> (simp [planExecute, h]; try decide)

/-- C4 witness: the empty-argument rejection at a whitespace-only argument
string. -/
theorem required_args_empty_rejected_witness :
    ((buildExecute initBotSt initServer " ").result.success = false ∧
     strContains (buildExecute initBotSt initServer " ").result.message
       ("Usage: /" ++ cmdName Cmd.build) = true ∧
     (buildExecute initBotSt initServer " ").apiCalls = [] ∧
     (buildExecute initBotSt initServer " ").state = initBotSt ∧
     (buildExecute initBotSt initServer " ").server = initServer) ∧
    ((planExecute initBotSt initServer " ").result.success = false ∧
     strContains (planExecute initBotSt initServer " ").result.message
       ("Usage: /" ++ cmdName Cmd.plan) = true ∧
     (planExecute initBotSt initServer " ").apiCalls = [] ∧
     (planExecute initBotSt initServer " ").state = initBotSt ∧
     (planExecute initBotSt initServer " ").server = initServer) :=
  required_args_empty_rejected initBotSt initServer " " (by decide)

end CodeBeep

namespace CodeBeep

/-- The session-binding path issues only verification and creation calls,
never a send carrying a model. -/
lemma get_or_create_calls_no_model (st : BotSt) (srv : Server) :
    ∀ call ∈ (get_or_create_session st srv).calls, modelArg call = none := by
  rcases hb : st.active_session with _ | cached
  · simp [get_or_create_session, hb, modelArg]
  · rcases hf : serverGetSession srv cached.id with _ | s <;>
      simp [get_or_create_session, hb, hf, modelArg]

/-- C9: the model command never calls the control-plane; with empty
arguments it succeeds and its message lists every known model name; with
non-empty arguments it changes only the process-local `current_model`
preference; and no call the build/plan paths issue ever carries a model
parameter — the stored preference is never sent. -/
theorem model_command_local_only (st : BotSt) (srv : Server) (args : String) :
    (modelExecute st srv args).apiCalls = [] ∧
    (modelExecute st srv args).server = srv ∧
    (pyStrip args = "" →
      (modelExecute st srv args).result.success = true ∧
      knownModels.all
        (fun m => strContains (modelExecute st srv args).result.message m)
        = true) ∧
    (pyStrip args ≠ "" →
      (modelExecute st srv args).state =
        { st with current_model := some (pyStrip args) } ∧
      (modelExecute st srv args).result.success = true) ∧
    (∀ call ∈ (buildExecute st srv args).apiCalls, modelArg call = none) ∧
    (∀ call ∈ (planExecute st srv args).apiCalls, modelArg call = none) := by
  by_cases h : pyStrip args = ""
  · refine ⟨by simp [modelExecute, h], by simp [modelExecute, h], ?_, ?_, ?_, ?_⟩
    · intro _
      constructor
      · simp [modelExecute, h]
      · simp [modelExecute, h]
        decide
    · intro hne
      exact absurd h hne
    · intro call hcall
      simp [buildExecute, h] at hcall
    · intro call hcall
      simp [planExecute, h] at hcall
  · refine ⟨by simp [modelExecute, h], by simp [modelExecute, h], ?_, ?_, ?_, ?_⟩
    · intro h'
      exact absurd h' h
    · intro _
      constructor
      · simp [modelExecute, h]
      · simp [modelExecute, h]
    · intro call hcall
      simp only [buildExecute, beq_iff_eq, if_neg h] at hcall
      rcases List.mem_append.mp hcall with hm | hm
      · exact get_or_create_calls_no_model st srv call hm
      · rcases List.mem_singleton.mp hm with rfl
        rfl
    · intro call hcall
      simp only [planExecute, beq_iff_eq, if_neg h] at hcall
      rcases List.mem_append.mp hcall with hm | hm
      · exact get_or_create_calls_no_model st srv call hm
      · rcases List.mem_singleton.mp hm with rfl
        rfl

/-- C9 witness: the model-command law at empty arguments and at setting a
model name. -/
theorem model_command_local_only_witness :
    ((modelExecute initBotSt initServer "").apiCalls = [] ∧
     (pyStrip "" = "" →
       (modelExecute initBotSt initServer "").result.success = true)) ∧
    ((modelExecute initBotSt initServer " m1 ").apiCalls = [] ∧
     (pyStrip " m1 " ≠ "" →
       (modelExecute initBotSt initServer " m1 ").state =
         { initBotSt with current_model := some (pyStrip " m1 ") })) :=
  ⟨⟨(model_command_local_only initBotSt initServer "").1,
    fun h => ((model_command_local_only initBotSt initServer "").2.2.1 h).1⟩,
   ⟨(model_command_local_only initBotSt initServer " m1 ").1,
    fun h =>
      ((model_command_local_only initBotSt initServer " m1 ").2.2.2.1 h).1⟩⟩

end CodeBeep

namespace CodeBeep

/-- C6: when the server reports the cached session id as not found, one
`get_or_create_session` call issues the failed verification followed by
exactly one creation, returns the newly created session (carrying the
server's fresh id), rebinds the slot to it, and the new session is now on
the server — the verification failure never escapes. -/
theorem stale_binding_recreated (st : BotSt) (srv : Server) (cached : Session)
    (hb : st.active_session = some cached)
    (hnf : serverGetSession srv cached.id = none) :
    (get_or_create_session st srv).calls =
      [.getSession cached.id,
       .createSession (some "codebeep mobile session") none] ∧
    ((get_or_create_session st srv).calls.countP
      (fun c => isCreateSessionCall c)) = 1 ∧
    (get_or_create_session st srv).state.active_session =
      some (get_or_create_session st srv).session ∧
    (get_or_create_session st srv).session.id = freshSessionId srv ∧
    (get_or_create_session st srv).server.sessions =
      srv.sessions ++ [(get_or_create_session st srv).session] := by
  refine ⟨?_, ?_, ?_, ?_, ?_⟩ <;>
    simp [get_or_create_session, hb, hnf, serverCreateSession,
      isCreateSessionCall, List.countP_cons]

/-- C6 witness: the stale-binding law at a cached session absent from an
empty server. -/
theorem stale_binding_recreated_witness :
    sampleBotSt.active_session = some sampleSession ∧
    serverGetSession initServer sampleSession.id = none ∧
    (get_or_create_session sampleBotSt initServer).calls =
      [.getSession sampleSession.id,
       .createSession (some "codebeep mobile session") none] ∧
    (get_or_create_session sampleBotSt initServer).state.active_session =
      some (get_or_create_session sampleBotSt initServer).session :=
  ⟨by decide, by decide,
   (stale_binding_recreated sampleBotSt initServer sampleSession
     (by decide) (by decide)).1,
   (stale_binding_recreated sampleBotSt initServer sampleSession
     (by decide) (by decide)).2.2.1⟩

end CodeBeep

namespace CodeBeep

/-- Looking a session's id up on a server that holds it succeeds and returns
a session with that id. -/
lemma serverGetSession_of_mem (srv : Server) (s : Session)
    (h : s ∈ srv.sessions) :
    ∃ t, serverGetSession srv s.id = some t ∧ t.id = s.id := by
  have h1 : (srv.sessions.find? (fun x => x.id == s.id)).isSome := by
    rw [List.find?_isSome]
    exact ⟨s, h, by simp⟩
  obtain ⟨t, ht⟩ := Option.isSome_iff_exists.mp h1
  refine ⟨t, ht, ?_⟩
  have h2 := List.find?_some ht
  simpa using h2

/-- A call starting from a binding whose session is on the server issues
exactly the one verification call and returns a session with the cached
id. -/
lemma goc_verify_cached (st : BotSt) (srv : Server) (s : Session)
    (hb : st.active_session = some s) (hmem : s ∈ srv.sessions) :
    (get_or_create_session st srv).calls = [.getSession s.id] ∧
    (get_or_create_session st srv).session.id = s.id := by
  obtain ⟨t, hf, hid⟩ := serverGetSession_of_mem srv s hmem
  simp [get_or_create_session, hb, hf, hid]

/-- C1 (amended): two successive `get_or_create_session` calls with no
intervening server-side deletion return the same session id from every
binding state; each call issues at most one verification call, creation
happens at most once across the two and never on the second; and from the
empty binding the pair issues exactly one creation (on the first call) and
exactly one verification (on the second). -/
theorem get_or_create_twice_amended (st : BotSt) (srv : Server) :
    (gocTwice st srv).2.session.id = (gocTwice st srv).1.session.id ∧
    ((gocTwice st srv).1.calls ++ (gocTwice st srv).2.calls).countP
      (fun c => isCreateSessionCall c) ≤ 1 ∧
    ((gocTwice st srv).2.calls.countP (fun c => isCreateSessionCall c)) = 0 ∧
    ((gocTwice st srv).1.calls.countP (fun c => isGetSessionCall c)) ≤ 1 ∧
    ((gocTwice st srv).2.calls.countP (fun c => isGetSessionCall c)) ≤ 1 ∧
    (st.active_session = none →
      (gocTwice st srv).1.calls =
        [.createSession (some "codebeep mobile session") none] ∧
      (gocTwice st srv).2.calls =
        [.getSession (gocTwice st srv).1.session.id]) := by
  rcases hb : st.active_session with _ | cached
  · -- empty binding: create on the first call, verify on the second
    have hc1 : (get_or_create_session st srv).calls =
        [.createSession (some "codebeep mobile session") none] := by
      simp [get_or_create_session, hb, serverCreateSession]
    have hb1 : (get_or_create_session st srv).state.active_session =
        some (get_or_create_session st srv).session := by
      simp [get_or_create_session, hb, serverCreateSession]
    have hm1 : (get_or_create_session st srv).session ∈
        (get_or_create_session st srv).server.sessions := by
      simp [get_or_create_session, hb, serverCreateSession]
    obtain ⟨hc2, hid2⟩ := goc_verify_cached _ _ _ hb1 hm1
    simp only [gocTwice]
    refine ⟨hid2, ?_, ?_, ?_, ?_, fun _ => ⟨hc1, hc2⟩⟩ <;>
      simp [hc1, hc2, List.countP_append, List.countP_cons,
        isCreateSessionCall, isGetSessionCall]
  · rcases hf : serverGetSession srv cached.id with _ | sess
    · -- stale binding: failed verification then creation, then verify
      have hc1 : (get_or_create_session st srv).calls =
          [.getSession cached.id,
           .createSession (some "codebeep mobile session") none] := by
        simp [get_or_create_session, hb, hf, serverCreateSession]
      have hb1 : (get_or_create_session st srv).state.active_session =
          some (get_or_create_session st srv).session := by
        simp [get_or_create_session, hb, hf, serverCreateSession]
      have hm1 : (get_or_create_session st srv).session ∈
          (get_or_create_session st srv).server.sessions := by
        simp [get_or_create_session, hb, hf, serverCreateSession]
      obtain ⟨hc2, hid2⟩ := goc_verify_cached _ _ _ hb1 hm1
      simp only [gocTwice]
      refine ⟨hid2, ?_, ?_, ?_, ?_, ?_⟩
      · simp [hc1, hc2, List.countP_append, List.countP_cons,
          isCreateSessionCall]
      · simp [hc2, List.countP_cons, isCreateSessionCall]
      · simp [hc1, List.countP_cons, isGetSessionCall]
      · simp [hc2, List.countP_cons, isGetSessionCall]
      · intro h
        simp at h
    · -- valid binding: both calls verify and return the cached id
      have hc1 : (get_or_create_session st srv).calls =
          [.getSession cached.id] := by
        simp [get_or_create_session, hb, hf]
      have hst : (get_or_create_session st srv).state = st := by
        simp [get_or_create_session, hb, hf]
      have hsrv : (get_or_create_session st srv).server = srv := by
        simp [get_or_create_session, hb, hf]
      simp only [gocTwice]
      rw [hst, hsrv]
      refine ⟨rfl, ?_, ?_, ?_, ?_, ?_⟩
      · simp [hc1, List.countP_append, List.countP_cons, isCreateSessionCall]
      · simp [hc1, List.countP_cons, isCreateSessionCall]
      · simp [hc1, List.countP_cons, isGetSessionCall]
      · simp [hc1, List.countP_cons, isGetSessionCall]
      · intro h
        simp at h

/-- C1 counterexample: starting from a binding that caches a session still
present on the server, the two calls issue two verification calls, not
exactly one — the claim's call-count bound fails for this binding state. -/
theorem get_or_create_twice_counterexample :
    ((gocTwice sampleBotSt sampleServer).1.calls ++
      (gocTwice sampleBotSt sampleServer).2.calls).countP
        (fun c => isGetSessionCall c) = 2 ∧
    ¬ (((gocTwice sampleBotSt sampleServer).1.calls ++
      (gocTwice sampleBotSt sampleServer).2.calls).countP
        (fun c => isGetSessionCall c) = 1) := by
  refine ⟨by decide, by decide⟩

/-- C1 witness: the amended law at the empty binding — same id twice,
creation exactly once on the first call, verification exactly once on the
second. -/
theorem get_or_create_twice_witness :
    (gocTwice initBotSt initServer).2.session.id =
      (gocTwice initBotSt initServer).1.session.id ∧
    (gocTwice initBotSt initServer).1.calls =
      [.createSession (some "codebeep mobile session") none] ∧
    (gocTwice initBotSt initServer).2.calls =
      [.getSession (gocTwice initBotSt initServer).1.session.id] :=
  ⟨(get_or_create_twice_amended initBotSt initServer).1,
   ((get_or_create_twice_amended initBotSt initServer).2.2.2.2.2 rfl).1,
   ((get_or_create_twice_amended initBotSt initServer).2.2.2.2.2 rfl).2⟩

end CodeBeep

namespace CodeBeep

/-- C8: a sender outside a configured non-empty allow-list causes no
outbound transport call and no control-plane call, whatever the message
body and however the self-echo facility behaves; and with an empty
allow-list every sender is allowed. -/
theorem unauthorized_sender_silent (conf : BotConf)
    (selfCheck : Except Unit Bool) (room_id sender body : String)
    (st : BotSt) (srv : Server)
    (hne : conf.allowed_users ≠ [])
    (hno : sender ∉ conf.allowed_users) :
    (handle_message conf selfCheck room_id sender body st srv).outbound = [] ∧
    (handle_message conf selfCheck room_id sender body st srv).apiCalls = [] ∧
    (∀ (conf2 : BotConf) (u : String), conf2.allowed_users = [] →
      is_user_allowed conf2 u = true) := by
  have hru : is_user_allowed conf sender = false := by
    unfold is_user_allowed
    rw [if_neg (by simp [List.isEmpty_iff, hne])]
    simp [hno]
  have hmain : handle_message conf selfCheck room_id sender body st srv =
      silentOut st srv := by
    unfold handle_message
    by_cases h1 : sender = ""
    · simp [h1]
    by_cases h2 : body = ""
    · simp [h1, h2]
    cases selfCheck with
    | ok b =>
      cases b
      · simp [h1, h2]
      · simp [h1, h2, hru]
    | error e =>
      by_cases h3 : sender = conf.username
      · simp [h1, h2, h3]
      · simp [h1, h2, h3, hru]
  refine ⟨by rw [hmain]; rfl, by rw [hmain]; rfl, ?_⟩
  intro conf2 u h0
  unfold is_user_allowed
  rw [if_pos (by simp [List.isEmpty_iff, h0])]

/-- C8 witness: a sender outside the one-entry allow-list sending `/build x`
produces no outbound call of any kind. -/
theorem unauthorized_sender_silent_witness :
    guardedConf.allowed_users ≠ [] ∧
    "@mallory:example.org" ∉ guardedConf.allowed_users ∧
    (handle_message guardedConf (.ok true) "!room:example.org"
      "@mallory:example.org" "/build x" initBotSt initServer).outbound = [] ∧
    (handle_message guardedConf (.ok true) "!room:example.org"
      "@mallory:example.org" "/build x" initBotSt initServer).apiCalls = [] :=
  ⟨by decide, by decide,
   (unauthorized_sender_silent guardedConf (.ok true) "!room:example.org"
     "@mallory:example.org" "/build x" initBotSt initServer
     (by decide) (by decide)).1,
   (unauthorized_sender_silent guardedConf (.ok true) "!room:example.org"
     "@mallory:example.org" "/build x" initBotSt initServer
     (by decide) (by decide)).2.1⟩

end CodeBeep
